import Mathlib

/-!
Verification development for the BioSort waste-sorting client.

The definitions below are a shallow embedding of the client-side
sensing/streaming/detection engine: the Detection Classifier, the
Detection Loop filtering, the Actuation Cooldown Gate, the Stream
Controller, the Proximity Monitor step, the Bin Capacity Poller and the
Overlay Renderer, together with the ESP32 request wrapper `fetchESP32`.
JavaScript numbers used for confidences and opacities are modelled as
rationals; millisecond timestamps are modelled as naturals (JavaScript
subtracts timestamps that never decrease along a run, and the embedding
mirrors each comparison as it is written in the source).  Strings are
ASCII in practice, so case folding is modelled as ASCII case folding.
-/

namespace BioSort

/-! ### String helpers (JS `toLowerCase`, `trim`, `includes`) -/

/-- ASCII case folding of one character, as `String.prototype.toLowerCase`
acts on the ASCII labels used by the model. -/
def lowerChar (c : Char) : Char :=
  if 'A' ≤ c ∧ c ≤ 'Z' then Char.ofNat (c.toNat + 32) else c

/-- ASCII lowercasing of a string. -/
def lowerStr (s : String) : String := ⟨s.data.map lowerChar⟩

/-- Whitespace recognised by `String.prototype.trim` (ASCII fragment). -/
def isWSChar (c : Char) : Bool :=
  c == ' ' || c == '\t' || c == '\n' || c == '\r'

/-- JS `String.prototype.trim`: drop leading and trailing whitespace. -/
def trimStr (s : String) : String :=
  ⟨((s.data.dropWhile isWSChar).reverse.dropWhile isWSChar).reverse⟩

/-- Does `needle` occur at the head of `hay`? -/
def matchesAt : List Char → List Char → Bool
  | [], _ => true
  | _ :: _, [] => false
  | a :: as, b :: bs => a == b && matchesAt as bs

/-- Does `needle` occur anywhere inside `hay`? -/
def hasSub (needle : List Char) : List Char → Bool
  | [] => needle.isEmpty
  | c :: t => matchesAt needle (c :: t) || hasSub needle t

/-- JS `hay.includes(needle)`. -/
def strIncludes (hay needle : String) : Bool := hasSub needle.data hay.data

/-! ### Waste classification (source: `wasteClassification` table and the
classification logic of `sendDetectionToController`) -/

inductive WasteType where
  | biodegradable
  | plastic
  | recyclable
deriving DecidableEq, Repr

/-- The static `wasteClassification` lookup table, in source order. -/
def wasteClassification : List (String × WasteType) :=
  [("Carrots", .biodegradable),
   ("Chili", .biodegradable),
   ("Egg shell", .biodegradable),
   ("Fish Bones", .biodegradable),
   ("food waste", .biodegradable),
   ("Garlic peel", .biodegradable),
   ("Garlic", .biodegradable),
   ("Ginger", .biodegradable),
   ("Laurel", .biodegradable),
   ("Lettuce", .biodegradable),
   ("Mixed Vegetables", .biodegradable),
   ("Onion", .biodegradable),
   ("Onion Peel", .biodegradable),
   ("Rice", .biodegradable),
   ("Tissue paper", .biodegradable),
   ("Bones", .biodegradable),
   ("Plastic", .plastic),
   ("Juice Packet", .plastic),
   ("Cigarette", .plastic),
   ("Tansan", .plastic),
   ("Paper Cup", .recyclable),
   ("Can Lid", .recyclable),
   ("Objects", .recyclable)]

/-- Case-insensitive exact lookup on the trimmed label
(`Object.keys(wasteClassification).find(key => key.toLowerCase() ===
normalizedClassName.toLowerCase())` in `sendDetectionToController`). -/
def tableLookupCI (className : String) : Option (String × WasteType) :=
  wasteClassification.find? (fun kv => lowerStr kv.1 == lowerStr (trimStr className))

/-- The plastic-keyword heuristic
(`className.toLowerCase().includes('plastic'|'packet'|'cigarette')`). -/
def hasPlasticKeyword (className : String) : Bool :=
  strIncludes (lowerStr className) "plastic" ||
  strIncludes (lowerStr className) "packet" ||
  strIncludes (lowerStr className) "cigarette"

/-- The recyclable-keyword heuristic
(`className.toLowerCase().includes('paper'|'cup'|'can'|'lid')`). -/
def hasRecyclableKeyword (className : String) : Bool :=
  strIncludes (lowerStr className) "paper" ||
  strIncludes (lowerStr className) "cup" ||
  strIncludes (lowerStr className) "can" ||
  strIncludes (lowerStr className) "lid"

/-- Classification of a detected label into an actuator command, as in
`sendDetectionToController` (source part_002 lines 1188-1210):
case-insensitive exact table lookup first, then plastic keywords, then
recyclable keywords, else the biodegradable default. -/
def classifyCommand (className : String) : WasteType :=
  match tableLookupCI className with
  | some kv => kv.2
  | none =>
    if hasPlasticKeyword className then .plastic
    else if hasRecyclableKeyword className then .recyclable
    else .biodegradable

/-- Classification as performed by `updateWasteStats` (source part_002
lines 1117-1151): a case-sensitive exact bracket lookup
`wasteClassification[className]`, then the same keyword heuristics. -/
def classifyStats (className : String) : WasteType :=
  match wasteClassification.find? (fun kv => kv.1 == className) with
  | some kv => kv.2
  | none =>
    if hasPlasticKeyword className then .plastic
    else if hasRecyclableKeyword className then .recyclable
    else .biodegradable

/-- Uppercased command names (`command.toUpperCase()` in history lines). -/
def wasteTypeUpper : WasteType → String
  | .biodegradable => "BIODEGRADABLE"
  | .plastic => "PLASTIC"
  | .recyclable => "RECYCLABLE"

/-! ### Timing constants (source part_002 lines 457-462) -/

def detectionDisplayTime : Nat := 3000
def DETECTION_COOLDOWN : Nat := 10000
def SENSOR_COOLDOWN : Nat := 60000
def STREAM_TIMEOUT : Nat := 30000

/-- The `CONFIDENCE_THRESHOLD` of the inference client (source part_001 line
24, the value `0.2`). -/
def CONFIDENCE_THRESHOLD : ℚ := mkRat 2 10

/-- The `confidenceThreshold` of the actuation gate (source part_002 line 458,
the value `0.6`). -/
def confidenceThreshold : ℚ := mkRat 6 10

/-! ### Detections and the inference-client filter (source part_001) -/

/-- A raw prediction from the inference API: `x`,`y` are box centers. -/
structure RawPrediction where
  cls : String
  confidence : ℚ
  x : ℚ
  y : ℚ
  width : ℚ
  height : ℚ
deriving DecidableEq, Repr

/-- A stored detection after the center-to-top-left conversion. -/
structure Detection where
  cls : String
  confidence : ℚ
  x : ℚ
  y : ℚ
  width : ℚ
  height : ℚ
deriving DecidableEq, Repr

/-- Embedding of `RoboflowAPI.filterDetections` (source part_001 lines 210-235):
keep predictions with confidence at or above `CONFIDENCE_THRESHOLD` and
convert the box center to a top-left corner. -/
def filterDetections (preds : List RawPrediction) : List Detection :=
  (preds.filter (fun p => CONFIDENCE_THRESHOLD ≤ p.confidence)).map
    (fun p => ⟨p.cls, p.confidence, p.x - p.width / 2, p.y - p.height / 2,
               p.width, p.height⟩)

/-! ### Detection loop bookkeeping (source part_002 `detectFromCurrentImage`
and `updateWasteStats`) -/

/-- An entry of the `activeDetections` overlay set
(`DetectionWithTime` in the source). -/
structure ActiveDetection where
  det : Detection
  timestamp : Nat
  color : String
  displayName : String
deriving DecidableEq, Repr

/-- Color and display name assigned in `detectFromCurrentImage` (source
part_002 lines 564-599): case-sensitive exact bracket lookup, then the
keyword heuristics. -/
def displayClassify (className : String) : String × String :=
  match wasteClassification.find? (fun kv => kv.1 == className) with
  | some kv =>
    match kv.2 with
    | .biodegradable => ("#00ff00", "BIO: " ++ className)
    | .plastic => ("#ff0000", "NON-BIO: " ++ className)
    | .recyclable => ("#0066ff", "RECYCLE: " ++ className)
  | none =>
    if hasPlasticKeyword className then ("#ff0000", "NON-BIO: " ++ className)
    else if hasRecyclableKeyword className then ("#0066ff", "RECYCLE: " ++ className)
    else ("#00ff00", "BIO: " ++ className)

/-- Build the `ActiveDetection` created for a prediction at time `now`. -/
def mkActiveDetection (now : Nat) (p : Detection) : ActiveDetection :=
  ⟨p, now, (displayClassify p.cls).1, (displayClassify p.cls).2⟩

/-- The cumulative `wasteStats` counters. -/
structure WasteStats where
  biodegradable : Nat
  nonBiodegradable : Nat
  recyclable : Nat
deriving DecidableEq, Repr

def statsTotal (s : WasteStats) : Nat :=
  s.biodegradable + s.nonBiodegradable + s.recyclable

/-- Increment the counter selected by `classifyStats`. -/
def bumpStat (acc : WasteStats) (w : WasteType) : WasteStats :=
  match w with
  | .biodegradable => { acc with biodegradable := acc.biodegradable + 1 }
  | .plastic => { acc with nonBiodegradable := acc.nonBiodegradable + 1 }
  | .recyclable => { acc with recyclable := acc.recyclable + 1 }

/-- The per-call counter increments of `updateWasteStats`. -/
def updateWasteStatsDelta (preds : List Detection) : WasteStats :=
  preds.foldl (fun acc p => bumpStat acc (classifyStats p.cls)) ⟨0, 0, 0⟩

def addStats (a b : WasteStats) : WasteStats :=
  ⟨a.biodegradable + b.biodegradable, a.nonBiodegradable + b.nonBiodegradable,
   a.recyclable + b.recyclable⟩

/-- State touched by a successful detection tick. -/
structure DetectLoopState where
  activeDetections : List ActiveDetection
  wasteStats : WasteStats
deriving DecidableEq, Repr

/-- The success path of `detectFromCurrentImage` (source part_002 lines
563-626) applied to the already-filtered predictions: create the overlay
entries (pruning expired previous ones), add the cumulative statistics,
and return the subset at or above `confidenceThreshold` that is handed to
`sendDetectionToController`. -/
def detectStep (s : DetectLoopState) (now : Nat) (preds : List Detection) :
    DetectLoopState × List Detection :=
  if preds.isEmpty then (s, [])
  else
    let newDetections := preds.map (mkActiveDetection now)
    let validPrevious :=
      s.activeDetections.filter (fun d => now - d.timestamp < detectionDisplayTime)
    let s1 : DetectLoopState :=
      ⟨validPrevious ++ newDetections,
       addStats s.wasteStats (updateWasteStatsDelta preds)⟩
    (s1, preds.filter (fun p => confidenceThreshold ≤ p.confidence))

/-- The `predictions.reduce((prev, current) => prev.confidence >
current.confidence ? prev : current)` in `sendDetectionToController`. -/
def topDetection (p : Detection) (ps : List Detection) : Detection :=
  ps.foldl (fun prev current =>
    if current.confidence < prev.confidence then prev else current) p

/-! ### The controller command path (`manualControl`, source part_002 lines
1298-1316) -/

/-- Operator-visible controller status recorded by `manualControl`. -/
structure CtrlState where
  lastCommandSuccess : Option Bool
  controllerStatus : String
deriving DecidableEq, Repr

def isOkOutcome : Except String String → Bool
  | .ok _ => true
  | .error _ => false

/-- Embedding of `manualControl` given the outcome of its `POST /control` fetch.  The
source wraps the fetch in try/catch with no rethrow: every outcome is
absorbed, `lastCommandSuccess` and `controllerStatus` are set, and the
function returns normally.  The `Except` result type records whether an
exception escapes to the caller; by the source it never does. -/
def manualControlStep (outcome : Except String String) : Except String CtrlState :=
  match outcome with
  | .ok _ => .ok ⟨some true, "Controller Online"⟩
  | .error _ => .ok ⟨some false, "Controller Unreachable"⟩

/-! ### The actuation cooldown gate (`sendDetectionToController`, source
part_002 lines 1168-1241) -/

structure GateState where
  isInCooldown : Bool
  cooldownRef : Nat
  cooldownRemaining : Nat
  ctrl : CtrlState
  history : List String
deriving DecidableEq, Repr

/-- One invocation of `sendDetectionToController` at time `now` with the
given (already high-confidence-filtered in the real flow, but arbitrary
here) predictions, where `outcome` is the result of the control fetch
inside `manualControl`.  Returns the new state and whether a
`POST /control` command was issued.  The `.error` branch of the inner
match embeds the source's catch block (lines 1236-1240), which resets
`isInCooldown` and the countdown but not `detectionCooldownRef`; it is
unreachable for command failures because `manualControlStep` never
returns `.error`. -/
def sendDetectionToController :
    GateState → Nat → List Detection → Except String String → GateState × Bool
  | s, _, [], _ => (s, false)
  | s, now, p :: ps, outcome =>
    if s.isInCooldown then (s, false)
    else if now - s.cooldownRef < DETECTION_COOLDOWN then (s, false)
    else
      let top := topDetection p ps
      let command := classifyCommand top.cls
      if confidenceThreshold ≤ top.confidence then
        let s1 : GateState :=
          { s with isInCooldown := true, cooldownRef := now,
                   cooldownRemaining := DETECTION_COOLDOWN / 1000 }
        match manualControlStep outcome with
        | .ok ctrl2 =>
          ({ s1 with ctrl := ctrl2,
                     history := (top.cls ++ " -> " ++ wasteTypeUpper command)
                       :: s1.history.take 9 }, true)
        | .error _ =>
          ({ s1 with isInCooldown := false, cooldownRemaining := 0 }, true)
      else
        ({ s with history :=
            (top.cls ++ " -> " ++ wasteTypeUpper command ++ " - LOW CONFIDENCE")
              :: s.history.take 9 }, false)

/-- One tick of the cooldown countdown interval (source part_002 lines
704-730): recompute the remaining seconds and leave cooldown when
`DETECTION_COOLDOWN` has elapsed since `detectionCooldownRef`. -/
def cooldownTick (s : GateState) (now : Nat) : GateState :=
  if s.isInCooldown then
    if DETECTION_COOLDOWN ≤ now - s.cooldownRef then
      { s with isInCooldown := false, cooldownRemaining := 0 }
    else
      { s with cooldownRemaining :=
          (DETECTION_COOLDOWN - (now - s.cooldownRef) + 999) / 1000 }
  else s

/-- Events interleaved by the scheduler that touch the gate state. -/
inductive GateEvent where
  | detect (now : Nat) (preds : List Detection) (outcome : Except String String)
  | tick (now : Nat)

/-- Run the gate over a sequence of events and collect the times at which
a `POST /control` command is issued. -/
def runGate : GateState → List GateEvent → List Nat
  | _, [] => []
  | s, GateEvent.detect n preds out :: rest =>
    let r := sendDetectionToController s n preds out
    if r.2 then n :: runGate r.1 rest else runGate r.1 rest
  | s, GateEvent.tick n :: rest => runGate (cooldownTick s n) rest

/-- Chained lower bounds: each listed time is at least
`DETECTION_COOLDOWN` after the previous one (and after `r`). -/
def gapFrom : Nat → List Nat → Prop
  | _, [] => True
  | r, t :: ts => r + DETECTION_COOLDOWN ≤ t ∧ gapFrom t ts

/-! ### Stream controller (`startStream` / `stopStream`, source part_002
lines 978-1077) -/

structure StreamState where
  cameraIP : String
  isStreaming : Bool
  streamActive : Bool
  streamStartTime : Nat
  activeDetections : List ActiveDetection
  isDetecting : Bool
  history : List String
deriving DecidableEq, Repr

inductive StartResult where
  | noCamera
  | alreadyStreaming
  | started
deriving DecidableEq, Repr

/-- Embedding of `startStream`: rejected when no camera IP is set, a no-op returning
the state untouched when already streaming, otherwise marks the session
active and records its start time.  (Clearing and cache-busting the
`<img>` element lives outside this state.) -/
def startStream (s : StreamState) (now : Nat) : StreamState × StartResult :=
  if s.cameraIP == "" then (s, .noCamera)
  else if s.isStreaming then (s, .alreadyStreaming)
  else
    ({ s with isStreaming := true, streamActive := true, streamStartTime := now,
              history := "Video stream starting..." :: s.history.take 9 },
     .started)

/-- Embedding of `stopStream`: unconditionally a total function (the source body is
straight-line assignments with no throw); deactivates the session, resets
its start time, clears the in-flight flag and the overlay set, and
appends a log line. -/
def stopStream (s : StreamState) : StreamState :=
  { s with isStreaming := false, streamActive := false, streamStartTime := 0,
           isDetecting := false, activeDetections := [],
           history := "Video stream stopped" :: s.history.take 9 }

def sessionCount (s : StreamState) : Nat := if s.isStreaming then 1 else 0

/-! ### Proximity monitor (`monitorSensor`, source part_002 lines 777-829) -/

structure MonitorState where
  lastStreamStart : Nat
  stream : StreamState
  stopTimerArmed : Bool
deriving DecidableEq, Repr

/-- One successful sensor poll of `monitorSensor`: start the stream when
an object is detected, no stream is active and strictly more than
`SENSOR_COOLDOWN` has elapsed since `lastStreamStartRef` (recording
`lastStreamStart := now` on that transition); otherwise arm or cancel the
5-second stop grace timer.  The second component reports whether
`startStream` was invoked. -/
def monitorStep (s : MonitorState) (objectDetected : Bool) (now : Nat) :
    MonitorState × Bool :=
  let canStartStream := decide (SENSOR_COOLDOWN < now - s.lastStreamStart)
  let started := objectDetected && !s.stream.isStreaming && canStartStream
  let s1 :=
    if started then
      { s with lastStreamStart := now, stream := (startStream s.stream now).1 }
    else s
  let s2 :=
    if !objectDetected && s.stream.isStreaming && !s.stopTimerArmed then
      { s1 with stopTimerArmed := true }
    else s1
  let s3 :=
    if objectDetected && s.stopTimerArmed then { s2 with stopTimerArmed := false }
    else s2
  (s3, started)

/-! ### Bin capacity poller (`fetchBinCapacity`, source part_002 lines
466-482) -/

structure BinStatus where
  distance : ℚ
  state : String
  fillPercentage : Nat
  warningSent : Bool
deriving DecidableEq, Repr

structure BinThresholds where
  empty : ℚ
  nearlyFull : ℚ
  full : ℚ
deriving DecidableEq, Repr

structure BinCapacityData where
  bin1 : BinStatus
  bin2 : BinStatus
  thresholds : BinThresholds
deriving DecidableEq, Repr

/-- Alert text for bin 1 (leading emoji of the source string omitted). -/
def bin1FullAlert : String := "Bin 1 (Recyclable) is FULL! Please empty it."

/-- Alert text for bin 2 (leading emoji of the source string omitted). -/
def bin2FullAlert : String := "Bin 2 (Non-Bio) is FULL! Please empty it."

structure BinClientState where
  binCapacity : BinCapacityData
  detectionHistory : List String
deriving DecidableEq, Repr

/-- A successful `fetchBinCapacity`: replace the snapshot wholesale, then
for each bin whose fetched state is `Full` with `warningSent` false,
prepend an alert to the capped history.  (A failed fetch leaves the state
unchanged and only logs to the console.) -/
def fetchBinCapacityStep (s : BinClientState) (d : BinCapacityData) :
    BinClientState :=
  let s0 : BinClientState := { s with binCapacity := d }
  let s1 :=
    if d.bin1.state == "Full" && !d.bin1.warningSent then
      { s0 with detectionHistory := bin1FullAlert :: s0.detectionHistory.take 9 }
    else s0
  if d.bin2.state == "Full" && !d.bin2.warningSent then
    { s1 with detectionHistory := bin2FullAlert :: s1.detectionHistory.take 9 }
  else s1

/-! ### Remote resource client (`fetchESP32`, source part_002 lines
118-196; the part_000 lines 7-90 variant has the same shape) -/

/-- Outcome of one `fetch` call.  `networkError` stands for any non-HTTP
thrown failure (connection refused, DNS, JSON decode on the 2xx path). -/
inductive FetchOutcome where
  | success (body : String)
  | httpError (status : Nat)
  | networkError (msg : String)
  | timedOut
deriving DecidableEq, Repr

structure ClientEnv where
  isProduction : Bool
  inBrowser : Bool
  storedControllerIP : Option String
deriving DecidableEq, Repr

def defaultControllerIP : String := "192.168.1.101"

/-- Base URL selection of `fetchESP32`: the proxy in production (and
server-side), the directly-addressed device IP in development in the
browser. -/
def esp32BaseUrl (e : ClientEnv) : String :=
  if e.isProduction then "/api/esp32"
  else if e.inBrowser then "http://" ++ e.storedControllerIP.getD defaultControllerIP
  else "/api/esp32"

/-- Message thrown for a failing first attempt
(`HTTP status: statusText` / the network error's own message). -/
def firstErrorMsg : FetchOutcome → String
  | .httpError st => "HTTP " ++ toString st
  | .networkError m => m
  | .timedOut => "Request timeout: ESP32 controller not responding"
  | .success _ => ""

/-- Message of the error thrown inside the fallback attempt. -/
def directErrorMsg : FetchOutcome → String
  | .httpError st => "Direct connection failed: HTTP " ++ toString st
  | .networkError m => m
  | .timedOut => "Request timeout"
  | .success _ => ""

/-- Result of a `fetchESP32` call together with the URLs it requested. -/
structure FetchTrace where
  result : Except String String
  attemptedUrls : List String

/-- Embedding of `fetchESP32 endpoint`: one request to the selected base URL with a
10-second abort timer; a timeout is rethrown with no fallback; any other
failure, outside production and with a stored controller IP, is followed
by exactly one more request to `http://controllerIP/endpoint`, whose own
failure is wrapped as `Both proxy and direct connection failed: msg`.
`attempt1`/`attempt2` supply the network's response to the first and the
fallback request. -/
def fetchESP32 (e : ClientEnv) (endpoint : String)
    (attempt1 attempt2 : String → FetchOutcome) : FetchTrace :=
  let url := esp32BaseUrl e ++ "/" ++ endpoint
  match attempt1 url with
  | .success body => ⟨.ok body, [url]⟩
  | .timedOut =>
    ⟨.error "Request timeout: ESP32 controller not responding", [url]⟩
  | o =>
    if e.isProduction then ⟨.error (firstErrorMsg o), [url]⟩
    else
      match e.storedControllerIP with
      | some ip =>
        let directUrl := "http://" ++ ip ++ "/" ++ endpoint
        match attempt2 directUrl with
        | .success body => ⟨.ok body, [url, directUrl]⟩
        | o2 =>
          ⟨.error ("Both proxy and direct connection failed: " ++ directErrorMsg o2),
           [url, directUrl]⟩
      | none => ⟨.error (firstErrorMsg o), [url]⟩

/-! ### Overlay renderer (`drawAllDetections`, source part_002 lines
1080-1115) -/

/-- JS `Math.min` on rationals. -/
def jsMin (a b : ℚ) : ℚ := if a ≤ b then a else b

/-- JS `Math.max` on rationals. -/
def jsMax (a b : ℚ) : ℚ := if a ≤ b then b else a

/-- The opacity computed by `drawAllDetections`:
`Math.min(1, timeLeft / 1000)` with
`timeLeft = detectionDisplayTime - (now - timestamp)`. -/
def drawOpacity (now timestamp : Nat) : ℚ :=
  jsMin 1 (((detectionDisplayTime : ℚ) - ((now : ℚ) - (timestamp : ℚ))) / 1000)

/-- The opacity formula stated by the specification:
`max(0, (DISPLAY_TIME - age) / 1000)`.  Kept separate so it can be
compared against the source's `drawOpacity`. -/
def specOpacity (now timestamp : Nat) : ℚ :=
  jsMax 0 (((detectionDisplayTime : ℚ) - ((now : ℚ) - (timestamp : ℚ))) / 1000)

/-- One box-plus-label draw emitted during a render tick. -/
structure DrawCommand where
  det : ActiveDetection
  opacity : ℚ
deriving DecidableEq, Repr

/-- One render tick of `drawAllDetections`: after clearing the canvas,
draw every active detection at its fade-out opacity. -/
def drawAllDetections (now : Nat) (dets : List ActiveDetection) :
    List DrawCommand :=
  dets.map (fun d => ⟨d, drawOpacity now d.timestamp⟩)

/-! ### Concrete inputs used by witnesses and counterexamples -/

def plasticPred : Detection :=
  ⟨"Plastic", mkRat 9 10, mkRat 0 1, mkRat 0 1, mkRat 0 1, mkRat 0 1⟩

def gateInit : GateState := ⟨false, 0, 0, ⟨none, "Controller Disconnected"⟩, []⟩

def idleStream : StreamState := ⟨"192.168.1.50", false, false, 0, [], false, []⟩

def activeStream : StreamState :=
  ⟨"192.168.1.50", true, true, 5000, [], false, ["Video stream starting..."]⟩

def monInit : MonitorState := ⟨0, idleStream, false⟩

def binThresholdsInit : BinThresholds := ⟨mkRat 59 1, mkRat 15 1, mkRat 10 1⟩

def binClientInit : BinClientState :=
  ⟨⟨⟨mkRat (-1) 1, "Empty", 0, false⟩, ⟨mkRat (-1) 1, "Empty", 0, false⟩,
    binThresholdsInit⟩, []⟩

def fullBinSnapshot : BinCapacityData :=
  ⟨⟨mkRat 9 1, "Full", 100, false⟩, ⟨mkRat 30 1, "Normal", 40, false⟩,
   binThresholdsInit⟩

def devEnv : ClientEnv := ⟨false, true, some "192.168.1.101"⟩

/-- Outcomes of the first fetch that make `fetchESP32` run its fallback
attempt (any thrown error other than the abort-timeout). -/
def triggersFallback : FetchOutcome → Bool
  | .httpError _ => true
  | .networkError _ => true
  | .timedOut => false
  | .success _ => false

def sampleActiveDet : ActiveDetection :=
  ⟨⟨"Plastic", mkRat 9 10, mkRat 10 1, mkRat 10 1, mkRat 50 1, mkRat 40 1⟩,
   0, "#ff0000", "NON-BIO: Plastic"⟩

/-! ## Theorems -/

/-- C4: Classification is a pure, deterministic function of the object
label: case-insensitive exact lookup in the static table first, then
substring heuristics with plastic-keywords taking priority over
recyclable-keywords, else the biodegradable default; in particular
classify("Plastic") = plastic, classify("Egg shell") = biodegradable,
classify("mystery_wrapper_packet") = plastic, and
classify("unlabeled_object") = biodegradable. -/
theorem classify_table_then_heuristics :
    classifyCommand "Plastic" = WasteType.plastic ∧
    classifyCommand "Egg shell" = WasteType.biodegradable ∧
    classifyCommand "mystery_wrapper_packet" = WasteType.plastic ∧
    classifyCommand "unlabeled_object" = WasteType.biodegradable ∧
    (∀ label kv, tableLookupCI label = some kv → classifyCommand label = kv.2) ∧
    (∀ label, tableLookupCI label = none → hasPlasticKeyword label = true →
      classifyCommand label = WasteType.plastic) ∧
    (∀ label, tableLookupCI label = none → hasPlasticKeyword label = false →
      hasRecyclableKeyword label = true →
      classifyCommand label = WasteType.recyclable) ∧
    (∀ label, tableLookupCI label = none → hasPlasticKeyword label = false →
      hasRecyclableKeyword label = false →
      classifyCommand label = WasteType.biodegradable) := by
  refine ⟨by decide, by decide, by decide, by decide, ?_, ?_, ?_, ?_⟩
  · intro label kv h
    simp [classifyCommand, h]
  · intro label h hp
    simp [classifyCommand, h, hp]
  · intro label h hp hr
    simp [classifyCommand, h, hp, hr]
  · intro label h hp hr
    simp [classifyCommand, h, hp, hr]

/-- Witness for C4: the keyword heuristics fire on a label absent from the
table, with the plastic keyword taking priority. -/
theorem classify_table_then_heuristics_witness :
    classifyCommand "shiny plastic cup" = WasteType.plastic :=
  classify_table_then_heuristics.2.2.2.2.2.1 "shiny plastic cup"
    (by decide) (by decide)

/-- C10: manualControl never propagates an exception: for every outcome of
its POST /control request it catches the failure internally, records it in
status state, and returns normally, so callers such as
sendDetectionToController never observe a thrown error. -/
theorem manual_control_never_throws :
    ∀ outcome : Except String String,
      manualControlStep outcome =
        Except.ok ⟨some (isOkOutcome outcome),
          if isOkOutcome outcome then "Controller Online"
          else "Controller Unreachable"⟩ := by
  intro outcome
  cases outcome <;> rfl

/-- C8 counterexample: in development mode in the browser, with controller
IP 192.168.1.101 stored, both requests made by a failing `fetchESP32
"sensor"` call go to the direct device URL; the same-origin proxy path
`/api/esp32/sensor` is never attempted, and the combined error carries
only the second attempt's message ("errB"), not the first one ("errA").
This refutes the claim that the fallback targets the proxy path. -/
theorem dev_fallback_not_proxy_cex :
    (fetchESP32 devEnv "sensor" (fun _ => FetchOutcome.networkError "errA")
        (fun _ => FetchOutcome.networkError "errB")).attemptedUrls
      = ["http://192.168.1.101/sensor", "http://192.168.1.101/sensor"] ∧
    ¬ ("/api/esp32/sensor" ∈
        (fetchESP32 devEnv "sensor" (fun _ => FetchOutcome.networkError "errA")
          (fun _ => FetchOutcome.networkError "errB")).attemptedUrls) ∧
    (fetchESP32 devEnv "sensor" (fun _ => FetchOutcome.networkError "errA")
        (fun _ => FetchOutcome.networkError "errB")).result
      = Except.error "Both proxy and direct connection failed: errB" :=
  ⟨by decide, by decide, rfl⟩

/-- C8 (amended): in development mode in the browser with a stored device
IP, when the first call (which already goes directly to the device IP)
fails with a non-timeout error, `fetchESP32` retries exactly once with a
second direct request to the same device IP (not the proxy), and if the
retry also fails it surfaces an error labelled "Both proxy and direct
connection failed" carrying the second attempt's message. -/
theorem dev_fallback_direct_retry :
    ∀ (ip endpoint : String) (o1 : FetchOutcome)
      (attempt2 : String → FetchOutcome),
      triggersFallback o1 = true →
      (fetchESP32 ⟨false, true, some ip⟩ endpoint (fun _ => o1)
          attempt2).attemptedUrls
        = ["http://" ++ ip ++ "/" ++ endpoint, "http://" ++ ip ++ "/" ++ endpoint] ∧
      (triggersFallback (attempt2 ("http://" ++ ip ++ "/" ++ endpoint)) = true →
        (fetchESP32 ⟨false, true, some ip⟩ endpoint (fun _ => o1) attempt2).result
          = Except.error ("Both proxy and direct connection failed: "
              ++ directErrorMsg (attempt2 ("http://" ++ ip ++ "/" ++ endpoint)))) := by
  intro ip endpoint o1 attempt2 h1
  have hbase : esp32BaseUrl ⟨false, true, some ip⟩ = "http://" ++ ip := by
    simp [esp32BaseUrl, Option.getD]
  cases o1 <;> simp_all [fetchESP32, esp32BaseUrl, triggersFallback] <;>
    rcases h2 : attempt2 ("http://" ++ ip ++ "/" ++ endpoint) <;>
      simp_all [triggersFallback]

/-- Witness for C8's amended theorem at a concrete failing environment. -/
theorem dev_fallback_direct_retry_witness :
    (fetchESP32 ⟨false, true, some "192.168.1.101"⟩ "sensor"
        (fun _ => FetchOutcome.httpError 500)
        (fun _ => FetchOutcome.httpError 404)).attemptedUrls
      = ["http://" ++ "192.168.1.101" ++ "/" ++ "sensor",
         "http://" ++ "192.168.1.101" ++ "/" ++ "sensor"] :=
  (dev_fallback_direct_retry "192.168.1.101" "sensor" (FetchOutcome.httpError 500)
    (fun _ => FetchOutcome.httpError 404) (by decide)).1

/-- C7 counterexample: two consecutive successful polls that both return
the same snapshot (bin 1 Full, warningSent false) append the bin-1 alert
twice, although at most one Normal-to-Full transition occurred.  This
refutes "exactly one entry per transition, not one entry per poll while
the bin remains Full with warningSent false". -/
theorem bin_alert_per_poll_cex :
    (fetchBinCapacityStep (fetchBinCapacityStep binClientInit fullBinSnapshot)
        fullBinSnapshot).detectionHistory.count bin1FullAlert = 2 ∧
    ¬ ((fetchBinCapacityStep (fetchBinCapacityStep binClientInit fullBinSnapshot)
        fullBinSnapshot).detectionHistory.count bin1FullAlert = 1) :=
  ⟨by decide, by decide⟩

/-- C7 (amended): the client performs no edge detection: on every
successful bin-capacity fetch whose snapshot reports a bin in state Full
with warningSent false, one alert entry is appended for that bin — one
entry per such poll — and the snapshot is replaced wholesale;
deduplication relies entirely on the controller setting warningSent. -/
theorem bin_alert_level_triggered :
    ∀ (s : BinClientState) (d : BinCapacityData),
      s.detectionHistory.length ≤ 8 →
      (fetchBinCapacityStep s d).binCapacity = d ∧
      (fetchBinCapacityStep s d).detectionHistory.count bin1FullAlert =
        s.detectionHistory.count bin1FullAlert +
          (if d.bin1.state == "Full" && !d.bin1.warningSent then 1 else 0) ∧
      (fetchBinCapacityStep s d).detectionHistory.count bin2FullAlert =
        s.detectionHistory.count bin2FullAlert +
          (if d.bin2.state == "Full" && !d.bin2.warningSent then 1 else 0) := by
  intro s d h
  have ht : s.detectionHistory.take 9 = s.detectionHistory :=
    List.take_of_length_le (le_trans h (by omega))
  have hne : (bin1FullAlert == bin2FullAlert) = false := by decide
  have hne2 : (bin2FullAlert == bin1FullAlert) = false := by decide
  by_cases h1 : (d.bin1.state == "Full" && !d.bin1.warningSent) = true <;>
    by_cases h2 : (d.bin2.state == "Full" && !d.bin2.warningSent) = true <;>
      simp [fetchBinCapacityStep, h1, h2, ht, List.count_cons,
        List.take_of_length_le, h, List.length_cons, hne, hne2,
        List.take_of_length_le (show s.detectionHistory.length ≤ 9 by omega)]

/-- Witness for C7's amended theorem: one poll of a Full-bin snapshot from
an empty history appends exactly one bin-1 alert. -/
theorem bin_alert_level_triggered_witness :
    (fetchBinCapacityStep binClientInit fullBinSnapshot).detectionHistory.count
        bin1FullAlert =
      binClientInit.detectionHistory.count bin1FullAlert +
        (if fullBinSnapshot.bin1.state == "Full" && !fullBinSnapshot.bin1.warningSent
         then 1 else 0) :=
  (bin_alert_level_triggered binClientInit fullBinSnapshot (by decide)).2.1

/-- C9 counterexample: for a detection of age 1000ms the code draws at
opacity Math.min(1, (3000 - 1000)/1000) = 1, while the claimed formula
max(0, (DISPLAY_TIME - age)/1000) evaluates to 2; the render pass does not
use the claimed formula. -/
theorem overlay_opacity_formula_cex :
    (drawAllDetections 1000 [sampleActiveDet]).map DrawCommand.opacity = [1] ∧
    specOpacity 1000 0 = 2 ∧
    ¬ ((drawAllDetections 1000 [sampleActiveDet]).map DrawCommand.opacity
        = [specOpacity 1000 0]) := by
  have h1 : drawOpacity 1000 0 = 1 := by
    norm_num [drawOpacity, jsMin, detectionDisplayTime]
  have h2 : specOpacity 1000 0 = 2 := by
    norm_num [specOpacity, jsMax, detectionDisplayTime]
  refine ⟨?_, h2, ?_⟩ <;>
    simp [drawAllDetections, sampleActiveDet, h1, h2]

/-- C9 (amended): on every render tick the Overlay Renderer draws each
active detection at opacity min(1, (DISPLAY_TIME - age)/1000) — clamped
above at 1 and not clamped below at 0 — where age is the current time
minus the detection's creation timestamp and DISPLAY_TIME is 3000ms. -/
theorem overlay_opacity_min_clamp :
    ∀ (now : Nat) (dets : List ActiveDetection) (d : ActiveDetection),
      d ∈ dets →
      (⟨d, jsMin 1 (((detectionDisplayTime : ℚ) - ((now : ℚ) - (d.timestamp : ℚ)))
          / 1000)⟩ : DrawCommand) ∈ drawAllDetections now dets ∧
      (drawAllDetections now dets).length = dets.length := by
  intro now dets d hd
  exact ⟨List.mem_map_of_mem _ hd, by simp [drawAllDetections]⟩

/-- Witness for C9's amended theorem at a concrete render tick. -/
theorem overlay_opacity_min_clamp_witness :
    (⟨sampleActiveDet,
      jsMin 1 ((((detectionDisplayTime : Nat) : ℚ)
        - (((1000 : Nat) : ℚ) - ((sampleActiveDet.timestamp : Nat) : ℚ))) / 1000)⟩
        : DrawCommand) ∈ drawAllDetections 1000 [sampleActiveDet] :=
  (overlay_opacity_min_clamp 1000 [sampleActiveDet] sampleActiveDet
    (List.Mem.head _)).1

/-- C6: calling stream-start while a session is already active never
creates a second concurrent session — the state is returned untouched and
the session count stays 1 — and calling stream-stop while no session is
active leaves every session field (active flags, start time, in-flight
flag, overlay set, camera address) unchanged and produces no error
(stopStream is a total function; the code's only extra effect is one
operator log line). -/
theorem stream_start_stop_idempotent :
    ∀ (s : StreamState) (now : Nat),
      (s.isStreaming = true →
        (startStream s now).1 = s ∧ sessionCount (startStream s now).1 = 1) ∧
      (s.isStreaming = false → s.streamActive = false → s.streamStartTime = 0 →
        s.isDetecting = false → s.activeDetections = [] →
        ((stopStream s).isStreaming = s.isStreaming ∧
         (stopStream s).streamActive = s.streamActive ∧
         (stopStream s).streamStartTime = s.streamStartTime ∧
         (stopStream s).isDetecting = s.isDetecting ∧
         (stopStream s).activeDetections = s.activeDetections ∧
         (stopStream s).cameraIP = s.cameraIP)) := by
  intro s now
  constructor
  · intro h
    by_cases hc : (s.cameraIP == "") = true <;>
      simp [startStream, hc, sessionCount, h]
  · intro h1 h2 h3 h4 h5
    simp [stopStream, h1, h2, h3, h4, h5]

/-- Witness for C6: start while streaming returns the state untouched;
stop while idle leaves the session fields of the idle state unchanged. -/
theorem stream_start_stop_idempotent_witness :
    (startStream activeStream 0).1 = activeStream ∧
    (stopStream idleStream).streamStartTime = idleStream.streamStartTime :=
  ⟨((stream_start_stop_idempotent activeStream 0).1 rfl).1,
   ((stream_start_stop_idempotent idleStream 0).2 rfl rfl rfl rfl rfl).2.2.1⟩

/-- C3: on a successful sensor poll, startStream is invoked exactly when
objectDetected is true AND no stream is currently active AND strictly more
than SENSOR_COOLDOWN (60000ms) has elapsed since lastStreamStart; on that
transition lastStreamStart is set to the current time and (with a camera
configured) the stream becomes active, and otherwise lastStreamStart and
the streaming flag are unchanged. -/
theorem monitor_starts_stream_iff :
    ∀ (s : MonitorState) (objectDetected : Bool) (now : Nat),
      s.stream.cameraIP ≠ "" →
      ((monitorStep s objectDetected now).2 =
        (objectDetected && !s.stream.isStreaming &&
          decide (SENSOR_COOLDOWN < now - s.lastStreamStart))) ∧
      ((monitorStep s objectDetected now).1.stream.isStreaming =
        ((monitorStep s objectDetected now).2 || s.stream.isStreaming)) ∧
      ((monitorStep s objectDetected now).1.lastStreamStart =
        (if (monitorStep s objectDetected now).2 = true then now
         else s.lastStreamStart)) := by
  intro s obj now hcam
  have hc : (s.stream.cameraIP == "") = false := by
    simpa [beq_iff_eq] using hcam
  cases obj <;> cases hs : s.stream.isStreaming <;>
    cases hcool : decide (SENSOR_COOLDOWN < now - s.lastStreamStart) <;>
      cases hst : s.stopTimerArmed <;>
        simp [monitorStep, startStream, hs, hcool, hst, hc]

/-- Witness for C3: with an object present, no active stream and the
sensor cooldown elapsed, the poll starts the stream and records the start
time. -/
theorem monitor_starts_stream_iff_witness :
    ((monitorStep monInit true 70000).2 =
      (true && !monInit.stream.isStreaming &&
        decide (SENSOR_COOLDOWN < 70000 - monInit.lastStreamStart))) ∧
    ((monitorStep monInit true 70000).1.stream.isStreaming =
      ((monitorStep monInit true 70000).2 || monInit.stream.isStreaming)) ∧
    ((monitorStep monInit true 70000).1.lastStreamStart =
      (if (monitorStep monInit true 70000).2 = true then 70000
       else monInit.lastStreamStart)) :=
  monitor_starts_stream_iff monInit true 70000 (by decide)

/-- Each counter bump adds exactly one to the statistics total. -/
theorem statsTotal_bumpStat (acc : WasteStats) (w : WasteType) :
    statsTotal (bumpStat acc w) = statsTotal acc + 1 := by
  cases w <;> simp [bumpStat, statsTotal] <;> omega

/-- Folding the per-prediction bumps adds the number of predictions. -/
theorem statsTotal_foldl_bump (l : List Detection) (acc : WasteStats) :
    statsTotal (l.foldl (fun a p => bumpStat a (classifyStats p.cls)) acc) =
      statsTotal acc + l.length := by
  induction l generalizing acc with
  | nil => simp
  | cons p t ih =>
    simp only [List.foldl_cons, ih, statsTotal_bumpStat, List.length_cons]
    omega

theorem statsTotal_addStats (a b : WasteStats) :
    statsTotal (addStats a b) = statsTotal a + statsTotal b := by
  simp only [addStats, statsTotal]
  omega

/-- The detection chosen by the `reduce` in `sendDetectionToController` is
one of the inputs and has maximal confidence among them. -/
theorem topDetection_spec : ∀ (ps : List Detection) (p : Detection),
    topDetection p ps ∈ p :: ps ∧
      ∀ q ∈ p :: ps, q.confidence ≤ (topDetection p ps).confidence := by
  intro ps
  induction ps with
  | nil =>
    intro p
    simp [topDetection]
  | cons a t ih =>
    intro p
    by_cases hlt : a.confidence < p.confidence
    · have h := ih p
      have e : topDetection p (a :: t) = topDetection p t := by
        simp [topDetection, hlt]
      rw [e]
      refine ⟨?_, ?_⟩
      · rcases List.mem_cons.mp h.1 with h1 | h1
        · simp [h1]
        · simp [List.mem_cons, h1]
      · intro q hq
        rcases List.mem_cons.mp hq with rfl | hq2
        · exact h.2 q (List.mem_cons_self _ _)
        rcases List.mem_cons.mp hq2 with rfl | hq3
        · exact le_trans (le_of_lt hlt) (h.2 p (List.mem_cons_self _ _))
        · exact h.2 q (List.mem_cons_of_mem _ hq3)
    · have h := ih a
      have e : topDetection p (a :: t) = topDetection a t := by
        simp [topDetection, hlt]
      rw [e]
      refine ⟨?_, ?_⟩
      · rcases List.mem_cons.mp h.1 with h1 | h1
        · simp [h1]
        · simp [List.mem_cons, h1]
      · intro q hq
        rcases List.mem_cons.mp hq with rfl | hq2
        · exact le_trans (le_of_not_lt hlt)
            (h.2 a (List.mem_cons_self _ _))
        rcases List.mem_cons.mp hq2 with rfl | hq3
        · exact h.2 q (List.mem_cons_self _ _)
        · exact h.2 q (List.mem_cons_of_mem _ hq3)

/-- C5: for every inference response, predictions with confidence below
the 0.2 floor are discarded by filterDetections before any classification;
only predictions at or above the 0.6 actuation threshold are forwarded
toward actuation, and of those the one with highest confidence is chosen;
every accepted prediction (at or above 0.2) is added to the overlay set
and counted in the cumulative statistics. -/
theorem detection_threshold_pipeline :
    (∀ (raw : List RawPrediction) (p : Detection),
      p ∈ filterDetections raw → CONFIDENCE_THRESHOLD ≤ p.confidence) ∧
    (∀ (raw : List RawPrediction) (q : RawPrediction),
      q ∈ raw → CONFIDENCE_THRESHOLD ≤ q.confidence →
      (⟨q.cls, q.confidence, q.x - q.width / 2, q.y - q.height / 2,
        q.width, q.height⟩ : Detection) ∈ filterDetections raw) ∧
    (∀ (s : DetectLoopState) (now : Nat) (preds : List Detection)
      (p : Detection), p ∈ (detectStep s now preds).2 →
      confidenceThreshold ≤ p.confidence ∧ p ∈ preds) ∧
    (∀ (s : DetectLoopState) (now : Nat) (preds : List Detection)
      (p : Detection), p ∈ preds → confidenceThreshold ≤ p.confidence →
      p ∈ (detectStep s now preds).2) ∧
    (∀ (s : DetectLoopState) (now : Nat) (preds : List Detection)
      (p : Detection), p ∈ preds →
      mkActiveDetection now p ∈ (detectStep s now preds).1.activeDetections) ∧
    (∀ (s : DetectLoopState) (now : Nat) (preds : List Detection),
      statsTotal (detectStep s now preds).1.wasteStats =
        statsTotal s.wasteStats + preds.length) ∧
    (∀ (p : Detection) (ps : List Detection),
      topDetection p ps ∈ p :: ps ∧
        ∀ q ∈ p :: ps, q.confidence ≤ (topDetection p ps).confidence) := by
  refine ⟨?_, ?_, ?_, ?_, ?_, ?_, fun p ps => topDetection_spec ps p⟩
  · intro raw p hp
    simp only [filterDetections, List.mem_map, List.mem_filter] at hp
    rcases hp with ⟨q, ⟨_, hq⟩, rfl⟩
    simpa using of_decide_eq_true hq
  · intro raw q hq hc
    simp only [filterDetections, List.mem_map]
    exact ⟨q, List.mem_filter.mpr ⟨hq, decide_eq_true hc⟩, rfl⟩
  · intro s now preds p hp
    cases preds with
    | nil => simp [detectStep] at hp
    | cons a t =>
      simp only [detectStep, List.isEmpty_cons, Bool.false_eq_true,
        if_false, List.mem_filter] at hp
      exact ⟨of_decide_eq_true hp.2, hp.1⟩
  · intro s now preds p hp hc
    cases preds with
    | nil => simp at hp
    | cons a t =>
      simp only [detectStep, List.isEmpty_cons, Bool.false_eq_true, if_false]
      exact List.mem_filter.mpr ⟨hp, decide_eq_true hc⟩
  · intro s now preds p hp
    cases preds with
    | nil => simp at hp
    | cons a t =>
      simp only [detectStep, List.isEmpty_cons, Bool.false_eq_true, if_false]
      exact List.mem_append_right _ (List.mem_map_of_mem _ hp)
  · intro s now preds
    cases preds with
    | nil => simp [detectStep]
    | cons a t =>
      simp only [detectStep, List.isEmpty_cons, Bool.false_eq_true, if_false,
        statsTotal_addStats, updateWasteStatsDelta, statsTotal_foldl_bump]
      simp [statsTotal]

/-- Witness for C5: a concrete accepted prediction lands in the overlay
set of the detection step. -/
theorem detection_threshold_pipeline_witness :
    mkActiveDetection 5000 plasticPred ∈
      (detectStep ⟨[], ⟨0, 0, 0⟩⟩ 5000 [plasticPred]).1.activeDetections :=
  detection_threshold_pipeline.2.2.2.2.1 ⟨[], ⟨0, 0, 0⟩⟩ 5000 [plasticPred]
    plasticPred (List.Mem.head _)

/-- A gate invocation issues a command only when at least
DETECTION_COOLDOWN has elapsed since `cooldownRef`, and then stamps
`cooldownRef` with the current time; otherwise `cooldownRef` is
unchanged. -/
theorem sendDetection_cooldownRef (s : GateState) (now : Nat)
    (preds : List Detection) (out : Except String String) :
    ((sendDetectionToController s now preds out).2 = true →
      s.cooldownRef + DETECTION_COOLDOWN ≤ now ∧
      (sendDetectionToController s now preds out).1.cooldownRef = now) ∧
    ((sendDetectionToController s now preds out).2 = false →
      (sendDetectionToController s now preds out).1.cooldownRef
        = s.cooldownRef) := by
  cases preds with
  | nil => simp [sendDetectionToController]
  | cons p ps =>
    cases h1 : s.isInCooldown
    · by_cases h2 : now - s.cooldownRef < DETECTION_COOLDOWN
      · simp [sendDetectionToController, h1, h2]
      · by_cases h3 : confidenceThreshold ≤ (topDetection p ps).confidence
        · have hC : DETECTION_COOLDOWN = 10000 := rfl
          have hle : s.cooldownRef + DETECTION_COOLDOWN ≤ now := by omega
          cases out <;>
            simp [sendDetectionToController, h1, h2, h3, manualControlStep, hle]
        · simp [sendDetectionToController, h1, h2, h3]
    · simp [sendDetectionToController, h1]

/-- The cooldown countdown tick never changes `cooldownRef`. -/
theorem cooldownTick_cooldownRef (s : GateState) (now : Nat) :
    (cooldownTick s now).cooldownRef = s.cooldownRef := by
  unfold cooldownTick
  split_ifs <;> rfl

/-- Along any event trace, the issued command times form a chain with
gaps of at least DETECTION_COOLDOWN, anchored at the state's
`cooldownRef`. -/
theorem runGate_gapFrom : ∀ (events : List GateEvent) (s : GateState),
    gapFrom s.cooldownRef (runGate s events) := by
  intro events
  induction events with
  | nil => intro s; trivial
  | cons e rest ih =>
    intro s
    cases e with
    | tick n =>
      have h := ih (cooldownTick s n)
      rw [cooldownTick_cooldownRef] at h
      simpa [runGate] using h
    | detect n preds out =>
      cases h : (sendDetectionToController s n preds out).2
      · have h1 := (sendDetection_cooldownRef s n preds out).2 h
        have h2 := ih (sendDetectionToController s n preds out).1
        rw [h1] at h2
        simpa [runGate, h] using h2
      · have h1 := (sendDetection_cooldownRef s n preds out).1 h
        have h2 := ih (sendDetectionToController s n preds out).1
        rw [h1.2] at h2
        simpa [runGate, h] using ⟨h1.1, h2⟩

/-- Every time in a chain is at least DETECTION_COOLDOWN above the
anchor. -/
theorem gapFrom_lower : ∀ (l : List Nat) (r t : Nat),
    gapFrom r l → t ∈ l → r + DETECTION_COOLDOWN ≤ t := by
  intro l
  induction l with
  | nil =>
    intro r t _ ht
    simp at ht
  | cons a as ih =>
    intro r t hg ht
    rcases List.mem_cons.mp ht with rfl | h2
    · exact hg.1
    · have h0 := hg.1
      have := ih a t hg.2 h2
      omega

/-- A chain with DETECTION_COOLDOWN gaps is pairwise separated. -/
theorem gapFrom_pairwise : ∀ (l : List Nat) (r : Nat), gapFrom r l →
    l.Pairwise (fun t1 t2 => t1 + DETECTION_COOLDOWN ≤ t2) := by
  intro l
  induction l with
  | nil =>
    intro r _
    exact List.Pairwise.nil
  | cons a as ih =>
    intro r hg
    exact List.Pairwise.cons (fun b hb => gapFrom_lower as a b hg.2 hb)
      (ih a hg.2)

/-- C1: for every sequence of detections and countdown ticks processed by
sendDetectionToController, no two POST /control commands are issued within
DETECTION_COOLDOWN (10000ms) of each other: any two issued command times
are at least 10000ms apart, because a trigger while a cooldown is active,
or less than 10000ms after the last trigger, issues no command. -/
theorem control_commands_cooldown_apart :
    ∀ (s : GateState) (events : List GateEvent),
      (runGate s events).Pairwise
        (fun t1 t2 => t1 + DETECTION_COOLDOWN ≤ t2) :=
  fun s events => gapFrom_pairwise _ s.cooldownRef (runGate_gapFrom events s)

/-- C2 counterexample: a qualifying detection at t = 20000 whose control
command fails (the fetch inside manualControl rejects) still issues the
command, and afterwards the cooldown is NOT cancelled: isInCooldown stays
true (manualControl absorbed the failure, so the gate's catch-based reset
never ran, and lastCommandSuccess records the failure), and the very next
qualifying detection 5000ms later issues no command.  This refutes the
claim that a failed command resets the cooldown so the next qualifying
detection can issue a command without waiting out the window. -/
theorem failed_command_keeps_cooldown_cex :
    (sendDetectionToController gateInit 20000 [plasticPred]
      (Except.error "Failed to fetch")).2 = true ∧
    (sendDetectionToController gateInit 20000 [plasticPred]
      (Except.error "Failed to fetch")).1.isInCooldown = true ∧
    (sendDetectionToController gateInit 20000 [plasticPred]
      (Except.error "Failed to fetch")).1.ctrl.lastCommandSuccess
      = some false ∧
    (sendDetectionToController
      (sendDetectionToController gateInit 20000 [plasticPred]
        (Except.error "Failed to fetch")).1
      25000 [plasticPred] (Except.ok "ok")).2 = false :=
  ⟨by decide, by decide, by decide, by decide⟩

/-- C2 (amended): when the control command issued by the gate fails, the
failure is absorbed inside manualControl (recorded as lastCommandSuccess =
false and a Controller Unreachable status); the cooldown is not cancelled
— the gate's catch-based reset is unreachable for command failures — so
no subsequent event can issue another command until DETECTION_COOLDOWN
(10000ms) has elapsed since the failed trigger. -/
theorem failed_command_cooldown_persists :
    ∀ (s : GateState) (now : Nat) (p : Detection) (ps : List Detection)
      (err : String) (events : List GateEvent),
      s.isInCooldown = false →
      DETECTION_COOLDOWN ≤ now - s.cooldownRef →
      confidenceThreshold ≤ (topDetection p ps).confidence →
      (sendDetectionToController s now (p :: ps) (Except.error err)).2
        = true ∧
      (sendDetectionToController s now (p :: ps)
        (Except.error err)).1.isInCooldown = true ∧
      (sendDetectionToController s now (p :: ps)
        (Except.error err)).1.ctrl.lastCommandSuccess = some false ∧
      ∀ t ∈ runGate
          (sendDetectionToController s now (p :: ps) (Except.error err)).1
          events,
        now + DETECTION_COOLDOWN ≤ t := by
  intro s now p ps err events h1 h2 h3
  have hlt : ¬ (now - s.cooldownRef < DETECTION_COOLDOWN) := by omega
  have hres : (sendDetectionToController s now (p :: ps)
      (Except.error err)).1.cooldownRef = now := by
    simp [sendDetectionToController, h1, hlt, h3, manualControlStep]
  refine ⟨?_, ?_, ?_, ?_⟩
  · simp [sendDetectionToController, h1, hlt, h3, manualControlStep]
  · simp [sendDetectionToController, h1, hlt, h3, manualControlStep]
  · simp [sendDetectionToController, h1, hlt, h3, manualControlStep]
  · intro t ht
    have hg := runGate_gapFrom events
      (sendDetectionToController s now (p :: ps) (Except.error err)).1
    rw [hres] at hg
    exact gapFrom_lower _ _ _ hg ht

/-- Witness for C2's amended theorem at the concrete failing command. -/
theorem failed_command_cooldown_persists_witness :
    (sendDetectionToController gateInit 20000 [plasticPred]
      (Except.error "err")).1.isInCooldown = true :=
  (failed_command_cooldown_persists gateInit 20000 plasticPred [] "err" []
    (by decide) (by decide) (by decide)).2.1

end BioSort
